import Mathlib

/-!
A verification development for the earthquake-explorer pipeline in
`src/app.py`.  The Python program is shallowly embedded: JSON values are an
inductive type, Python exceptions are an explicit error type (distinguishing
the exception classes the parser catches from those it does not), timestamps
are exact rationals counting seconds since the Unix epoch, and the network is
modelled by passing the HTTP response the server would have produced.
-/

/-- A JSON value, as decoded by Python's `json` module.  Objects are assumed
to have pairwise distinct keys (Python dicts cannot hold duplicates). -/
inductive Json where
  | null
  | bool (b : Bool)
  | num (q : ℚ)
  | str (s : String)
  | arr (elems : List Json)
  | obj (fields : List (String × Json))

/-- The Python exception classes reachable in `parse_geojson` and
`fetch_quakes`.  `runtimeError` carries the message string. -/
inductive PyErr where
  | keyError
  | typeError
  | valueError
  | indexError
  | attributeError
  | runtimeError (msg : String)
deriving DecidableEq

/-- Whether the `except (KeyError, TypeError, ValueError)` clause of
`parse_geojson` catches this exception.  `IndexError` and `AttributeError`
are absent from that tuple and therefore escape. -/
def PyErr.caught : PyErr → Bool
  | .keyError => true
  | .typeError => true
  | .valueError => true
  | _ => false

def Json.isNull : Json → Bool
  | .null => true
  | _ => false

def Json.isArr : Json → Bool
  | .arr _ => true
  | _ => false

/-- Python truthiness: `None`, `False`, `0`, `""`, `[]`, `{}` are falsy. -/
def pyFalsy : Json → Bool
  | .null => true
  | .bool b => !b
  | .num q => q == 0
  | .str s => s.isEmpty
  | .arr xs => xs.isEmpty
  | .obj fs => fs.isEmpty

/-- Python `x[key]` with a string key: dict lookup (`KeyError` when the key is
missing); every non-dict value raises `TypeError` for a string subscript. -/
def getStr : Json → String → Except PyErr Json
  | .obj fs, k =>
    match fs.lookup k with
    | some v => .ok v
    | none => .error .keyError
  | _, _ => .error .typeError

/-- Python `x[i]` with a nonnegative integer index: list indexing
(`IndexError` when out of range), string indexing (a one-character string, or
`IndexError`), dict lookup (`KeyError`: JSON object keys are strings, so an
integer key is never present); other values raise `TypeError`. -/
def getIdx : Json → Nat → Except PyErr Json
  | .arr xs, i =>
    match xs.get? i with
    | some v => .ok v
    | none => .error .indexError
  | .str s, i =>
    match s.toList.get? i with
    | some c => .ok (.str (String.singleton c))
    | none => .error .indexError
  | .obj _, _ => .error .keyError
  | _, _ => .error .typeError

/-- Python `x.get(key)` (defaulting to `None`): only dicts have a `get`
method, so every other value raises `AttributeError` — an exception the
parser's `except` clause does not catch. -/
def dictGet : Json → String → Except PyErr Json
  | .obj fs, k => .ok ((fs.lookup k).getD .null)
  | _, _ => .error .attributeError

def digitsToNat (cs : List Char) : ℕ :=
  cs.foldl (fun n c => 10 * n + (c.toNat - 48)) 0

/-- Decimal numeral body: digits with an optional fractional part
(`"4.8"`, `"4."`, `".5"`).  Exotic `float` syntax (exponents, `inf`,
surrounding whitespace) is not modelled; no claim exercises it. -/
def parseDecimalCore (cs : List Char) : Option ℚ :=
  match cs.span (·.isDigit) with
  | (intPart, []) =>
    if intPart.isEmpty then none else some ((digitsToNat intPart : ℚ))
  | (intPart, '.' :: fracPart) =>
    if fracPart.all (·.isDigit) && (!intPart.isEmpty || !fracPart.isEmpty) then
      some ((digitsToNat intPart : ℚ) +
        (digitsToNat fracPart : ℚ) / ((10 : ℚ) ^ fracPart.length))
    else none
  | _ => none

/-- Python `float(s)` on a string, as an exact rational. -/
def parseFloatStr (s : String) : Option ℚ :=
  match s.toList with
  | '-' :: rest => (parseDecimalCore rest).map (fun q => -q)
  | '+' :: rest => parseDecimalCore rest
  | cs => parseDecimalCore cs

/-- Python `int(s)` on a string: an optional sign followed by digits. -/
def parseIntStr (s : String) : Option ℤ :=
  let core : List Char → Option ℤ := fun cs =>
    if !cs.isEmpty && cs.all (·.isDigit) then some ((digitsToNat cs : ℤ)) else none
  match s.toList with
  | '-' :: rest => (core rest).map (fun n => -n)
  | '+' :: rest => core rest
  | cs => core cs

/-- Python `float(x)`: numbers pass through, bools coerce to 0/1, strings are
parsed (`ValueError` on failure), everything else raises `TypeError`.
Binary-float rounding is not modelled: values stay exact rationals. -/
def toFloatPy : Json → Except PyErr ℚ
  | .num q => .ok q
  | .bool b => .ok (if b then 1 else 0)
  | .str s =>
    match parseFloatStr s with
    | some q => .ok q
    | none => .error .valueError
  | _ => .error .typeError

/-- Truncation toward zero, the behaviour of Python `int()` on a float. -/
def truncRat (q : ℚ) : ℤ := if q < 0 then -⌊-q⌋ else ⌊q⌋

/-- Python `int(x)`. -/
def toIntPy : Json → Except PyErr ℤ
  | .num q => .ok (truncRat q)
  | .bool b => .ok (if b then 1 else 0)
  | .str s =>
    match parseIntStr s with
    | some n => .ok n
    | none => .error .valueError
  | _ => .error .typeError

/-- Python `str(x)`.  Claims only exercise the string case; the renderings of
numeric and container values are simplified (Python repr not reproduced). -/
def pyStr : Json → String
  | .str s => s
  | .null => "None"
  | .bool b => if b then "True" else "False"
  | .num q => toString q
  | .arr _ => "[...]"
  | .obj _ => "{...}"

/-- `x or default` for a string default, as used for `place` and `url`. -/
def withDefault (j : Json) (d : String) : Json :=
  if pyFalsy j then .str d else j

/-- The `Quake` dataclass.  `time_utc` is the instant as exact seconds since
the Unix epoch (the value `datetime.fromtimestamp(int(t_ms)/1000, tz=utc)`
denotes). -/
structure Quake where
  magnitude : ℚ
  place : String
  time_utc : ℚ
  url : String
  lon : ℚ
  lat : ℚ
  depth_km : ℚ
deriving DecidableEq

/-- The body of the `try:` block run for one feature in `parse_geojson`:
`.ok (some q)` when a record is appended, `.ok none` for the explicit
`continue` on a missing magnitude/time, `.error e` when an exception is
raised.  Accesses follow the source order: `properties`, `geometry`,
`coordinates` subscripts, then the `.get` reads, then `coords[0..2]`, then
the `None` test, then the numeric conversions. -/
def extractQuake (f : Json) : Except PyErr (Option Quake) :=
  (getStr f "properties").bind fun props =>
  (getStr f "geometry").bind fun geom =>
  (getStr geom "coordinates").bind fun coords =>
  (dictGet props "mag").bind fun mag =>
  (dictGet props "place").bind fun placeRaw =>
  (dictGet props "time").bind fun t_ms =>
  (dictGet props "url").bind fun urlRaw =>
  (getIdx coords 0).bind fun lon =>
  (getIdx coords 1).bind fun lat =>
  (getIdx coords 2).bind fun depth =>
  if mag.isNull || t_ms.isNull then .ok none else
  (toIntPy t_ms).bind fun tI =>
  (toFloatPy mag).bind fun magF =>
  (toFloatPy lon).bind fun lonF =>
  (toFloatPy lat).bind fun latF =>
  (toFloatPy depth).bind fun depthF =>
  .ok (some
    { magnitude := magF
      place := pyStr (withDefault placeRaw "(unknown location)")
      time_utc := (tI : ℚ) / 1000
      url := pyStr (withDefault urlRaw "")
      lon := lonF
      lat := latF
      depth_km := depthF })

/-- The feature loop of `parse_geojson`: caught exceptions skip the feature,
uncaught exceptions (IndexError, AttributeError) abort the whole parse. -/
def parseFeatures : List Json → Except PyErr (List Quake)
  | [] => .ok []
  | f :: rest =>
    match extractQuake f with
    | .ok (some q) => (parseFeatures rest).map (fun qs => q :: qs)
    | .ok none => parseFeatures rest
    | .error e => if e.caught then parseFeatures rest else .error e

/-- `parse_geojson`: reads `data.get("features")`, demands a list (raising
`RuntimeError` otherwise), then runs the per-feature loop. -/
def parse_geojson (data : Json) : Except PyErr (List Quake) :=
  (dictGet data "features").bind fun features =>
  match features with
  | .arr fs => parseFeatures fs
  | _ => .error (.runtimeError "Unexpected response: 'features' missing or not a list.")

/-- Descending-magnitude comparison used by `sorted(key=..., reverse=True)`. -/
def magDesc (a b : Quake) : Bool := decide (b.magnitude ≤ a.magnitude)

/-- Descending-time comparison used by `sorted(key=..., reverse=True)`. -/
def timeDesc (a b : Quake) : Bool := decide (b.time_utc ≤ a.time_utc)

/-- `sort_quakes`: Python's `sorted` is a stable sort, and with
`reverse=True` it is the stable sort for the reversed comparison; both are
modelled by `List.mergeSort`, the stable sort on the descending preorder. -/
def sort_quakes (quakes : List Quake) (order : String) : List Quake :=
  if order = "time" then quakes.mergeSort timeDesc
  else quakes.mergeSort magDesc

/-- `isoformat_utc`: the source renders a UTC datetime as an ISO-8601 string
at seconds precision (microseconds truncated, no timezone suffix).  The
string is modelled by the whole-second instant it denotes, `⌊t⌋` seconds
since the epoch; chronological order of these integers coincides with
lexicographic order of the equal-length ISO strings. -/
def isoformat_utc (t : ℚ) : ℤ := ⌊t⌋

/-- The query mapping returned by `build_params`.  The `starttime` and
`endtime` strings are modelled by the instants they denote (see
`isoformat_utc`); `minmagnitude` and `limit` by the values their decimal
strings denote. -/
structure Params where
  format : String
  starttime : ℤ
  endtime : ℤ
  minmagnitude : ℚ
  limit : ℤ
deriving DecidableEq

def build_params (start_utc end_utc : ℚ) (min_mag : ℚ) (limit : ℤ) : Params :=
  { format := "geojson"
    starttime := isoformat_utc start_utc
    endtime := isoformat_utc end_utc
    minmagnitude := min_mag
    limit := limit }

/-- The HTTP response the server produced for the single GET request.
`jsonBody` is the result of `resp.json()`: `none` when the body is not valid
JSON.  The transport-failure branch (`requests.RequestException`) is outside
this model: a response was received. -/
structure HttpResponse where
  status_code : ℕ
  text : String
  jsonBody : Option Json

/-- `fetch_quakes` after the GET returned: non-200 statuses raise a
`RuntimeError` whose message embeds `resp.text[:300]`; an unparseable body
raises a `RuntimeError`; otherwise the decoded JSON is returned. -/
def fetch_quakes (resp : HttpResponse) : Except PyErr Json :=
  if resp.status_code ≠ 200 then
    .error (.runtimeError
      ("USGS API returned HTTP " ++ toString resp.status_code ++ ": " ++ resp.text.take 300))
  else
    match resp.jsonBody with
    | some j => .ok j
    | none => .error (.runtimeError "USGS API response was not valid JSON.")

/-- The fetch stage followed by the parse stage, as wired in `main`. -/
def fetch_then_parse (resp : HttpResponse) : Except PyErr (List Quake) :=
  (fetch_quakes resp).bind parse_geojson

/-- `f"{x:.1f}"`: one decimal place.  Rounding is half-up on the exact
rational (the binary-float rounding of the source is not modelled; no claim
depends on a rendered row). -/
def fmt1 (q : ℚ) : String :=
  let n : ℤ := ⌊q * 10 + 1 / 2⌋
  let sign := if n < 0 then "-" else ""
  sign ++ toString (n.natAbs / 10) ++ "." ++ toString (n.natAbs % 10)

def pad2 (n : ℕ) : String := if n < 10 then "0" ++ toString n else toString n

def pad4 (n : ℕ) : String :=
  if n < 10 then "000" ++ toString n
  else if n < 100 then "00" ++ toString n
  else if n < 1000 then "0" ++ toString n
  else toString n

/-- Civil date from days since 1970-01-01 (proleptic Gregorian), the date
arithmetic inside `datetime`.  Returns (year, month, day). -/
def civilFromDays (z : ℤ) : ℤ × ℕ × ℕ :=
  let z' := z + 719468
  let era : ℤ := z'.ediv 146097
  let doe : ℕ := (z'.emod 146097).toNat
  let yoe : ℕ := (doe - doe / 1460 + doe / 36524 - doe / 146096) / 365
  let doy : ℕ := doe - (365 * yoe + yoe / 4 - yoe / 100)
  let mp : ℕ := (5 * doy + 2) / 153
  let d : ℕ := doy - (153 * mp + 2) / 5 + 1
  let m : ℕ := if mp < 10 then mp + 3 else mp - 9
  (era * 400 + yoe + (if m ≤ 2 then 1 else 0), m, d)

/-- `strftime("%Y-%m-%d %H:%M UTC")` on the UTC datetime for epoch-seconds
`t` (years before year 0 render with a plain minus sign). -/
def strftimeUTC (t : ℚ) : String :=
  let s : ℤ := ⌊t⌋
  let days : ℤ := s.ediv 86400
  let sod : ℕ := (s.emod 86400).toNat
  let ymd := civilFromDays days
  let yearStr := if ymd.1 < 0 then toString ymd.1 else pad4 ymd.1.toNat
  yearStr ++ "-" ++ pad2 ymd.2.1 ++ "-" ++ pad2 ymd.2.2 ++ " " ++
    pad2 (sod / 3600) ++ ":" ++ pad2 (sod % 3600 / 60) ++ " UTC"

/-- `format_row`. -/
def format_row (q : Quake) : String :=
  "M" ++ fmt1 q.magnitude ++ " | " ++ strftimeUTC q.time_utc ++
    " | depth " ++ fmt1 q.depth_km ++ " km | " ++ q.place

/-- Python `l[:k]`, including the negative-`k` convention. -/
def pySliceTo {α : Type} (l : List α) (k : ℤ) : List α :=
  if 0 ≤ k then l.take k.toNat else l.take (l.length - (-k).toNat)

/-- `f"{i:>2}"`: right-aligned in width 2. -/
def numFmt (i : ℕ) : String := if i < 10 then " " ++ toString i else toString i

/-- The numbered listing body: one row per quake, plus an indented URL line
when the URL is nonempty. -/
def resultRows : List Quake → ℕ → List String
  | [], _ => []
  | q :: rest, i =>
    (numFmt i ++ ". " ++ format_row q) ::
      (if q.url.isEmpty then resultRows rest (i + 1)
       else ("    USGS page: " ++ q.url) :: resultRows rest (i + 1))

/-- `print_results`, as the list of lines written to standard output. -/
def print_results (quakes : List Quake) (limit : ℤ) : List String :=
  if quakes.isEmpty then ["No earthquakes matched your filters."]
  else
    ("Found " ++ toString quakes.length ++ " earthquakes. Showing up to " ++
        toString (min limit (quakes.length : ℤ)) ++ ":") ::
      String.mk (List.replicate 80 '-') ::
      resultRows (pySliceTo quakes limit) 1

/-- Observable outcome of `plot_quakes`: the lines it prints and whether a
chart was rendered (the matplotlib calls are represented by this flag). -/
structure PlotResult where
  printed : List String
  chartProduced : Bool
deriving DecidableEq

def plot_quakes (quakes : List Quake) (title : String) (save_path : Option String)
    (showFlag : Bool) : PlotResult :=
  if quakes.isEmpty then { printed := ["No data to plot."], chartProduced := false }
  else
    { printed :=
        match save_path with
        | some p => ["Saved plot to: " ++ p]
        | none => []
      chartProduced := true }

/-- The parsed CLI options (`argparse` namespace). -/
structure Args where
  hours : ℚ
  min_mag : ℚ
  limit : ℤ
  order : String
  plot : Bool
  save_plot : Option String
  no_show : Bool

/-- Outcome of one `main` invocation: the returned exit code or the uncaught
exception, the lines on each stream, and whether the network was reached. -/
structure RunResult where
  result : Except PyErr ℤ
  stderr : List String
  stdout : List String
  networkCalled : Bool

/-- The plot title `f"Earthquakes past {hours:g}h (min M{min_mag:g})"`.
The `%g` float rendering is simplified; the title is not observable in this
model (`plot_quakes` ignores it). -/
def mkTitle (a : Args) : String :=
  "Earthquakes past " ++ toString a.hours ++ "h (min M" ++ toString a.min_mag ++ ")"

/-- The source's `main` after argument parsing (the name `main` is reserved
in Lean): `now` is `datetime.now(timezone.utc)` and `resp` the response the
server returns for the built query. -/
def runMain (a : Args) (now : ℚ) (resp : HttpResponse) : RunResult :=
  if a.hours ≤ 0 then
    { result := .ok 2, stderr := ["--hours must be > 0"], stdout := [], networkCalled := false }
  else if a.limit ≤ 0 then
    { result := .ok 2, stderr := ["--limit must be > 0"], stdout := [], networkCalled := false }
  else
    let _params := build_params (now - a.hours * 3600) now a.min_mag a.limit
    match fetch_quakes resp with
    | .error e => { result := .error e, stderr := [], stdout := [], networkCalled := true }
    | .ok data =>
      match parse_geojson data with
      | .error e => { result := .error e, stderr := [], stdout := [], networkCalled := true }
      | .ok quakes =>
        let outText := print_results (sort_quakes quakes a.order) a.limit
        if a.plot || a.save_plot.isSome then
          let pr := plot_quakes (sort_quakes quakes "time") (mkTitle a) a.save_plot (!a.no_show)
          { result := .ok 0, stderr := [], stdout := outText ++ pr.printed, networkCalled := true }
        else
          { result := .ok 0, stderr := [], stdout := outText, networkCalled := true }

/-! Concrete fixtures used by the theorems and witnesses below. -/

/-- The fully-populated feature of the specification's example: magnitude
4.8, time 1700000000000 ms, coordinates [-122.4, 37.8, 10.5], place
"10km NW of X". -/
def specFeature : Json :=
  .obj [("properties", .obj [("mag", .num 4.8), ("time", .num 1700000000000),
          ("place", .str "10km NW of X")]),
        ("geometry", .obj [("coordinates", .arr [.num (-122.4), .num 37.8, .num 10.5])])]

def specDoc : Json := .obj [("features", .arr [specFeature])]

/-- The record `parse_geojson` builds from `specFeature`.  Its `time_utc`
is epoch-second 1700000000, the UTC instant epoch-millisecond 1700000000000
denotes. -/
def specQuake : Quake :=
  { magnitude := 4.8, place := "10km NW of X", time_utc := 1700000000, url := "",
    lon := -122.4, lat := 37.8, depth_km := 10.5 }

/-- A feature with an empty properties object (magnitude and time missing)
but structurally complete geometry: the parser must skip it. -/
def skipFeature : Json :=
  .obj [("properties", .obj []),
        ("geometry", .obj [("coordinates", .arr [.num 0, .num 0, .num 0])])]

/-- A feature whose magnitude and time are present and valid but whose
coordinates list has only two elements. -/
def shortCoordsFeature : Json :=
  .obj [("properties", .obj [("mag", .num 4.8), ("time", .num 1700000000000)]),
        ("geometry", .obj [("coordinates", .arr [.num 1, .num 2])])]

def shortCoordsDoc : Json := .obj [("features", .arr [shortCoordsFeature])]

/-- A placeholder record for the display-limit witness. -/
def wQuake : Quake :=
  { magnitude := 0, place := "", time_utc := 0, url := "", lon := 0, lat := 0, depth_km := 0 }

/-- A server failure response with a long diagnostic body. -/
def resp500 : HttpResponse :=
  { status_code := 500, text := "Internal Server Error: the query engine fell over", jsonBody := none }

/-- A successful response carrying an empty feature list. -/
def respOk : HttpResponse :=
  { status_code := 200, text := "", jsonBody := some (.obj [("features", .arr [])]) }

/-- CLI options with a non-positive lookback window. -/
def wArgs : Args :=
  { hours := 0, min_mag := 5/2, limit := 20, order := "magnitude",
    plot := false, save_plot := none, no_show := false }

/-- A feature the extraction loop skips contributes nothing, wherever it
stands in the list. -/
theorem parseFeatures_skip (f : Json) (h : extractQuake f = .ok none) :
    ∀ pre post : List Json, parseFeatures (pre ++ f :: post) = parseFeatures (pre ++ post) := by
  intro pre post
  induction pre with
  | nil => simp [parseFeatures, h]
  | cons a rest ih =>
    simp only [List.cons_append, parseFeatures, List.append_eq]
    cases hae : extractQuake a with
    | ok oq => cases oq <;> simp [ih]
    | error e => simp [ih]

/-- C1: in a document whose feature list is a sequence, a structurally
complete feature (object properties, geometry with a ≥3-element coordinate
array) that lacks `mag` or `time` is skipped and contributes nothing to the
parsed record list, wherever it occurs; and the specification's fully
populated example feature (magnitude 4.8, time 1700000000000 ms,
coordinates [-122.4, 37.8, 10.5], place "10km NW of X") parses to exactly
one record with magnitude 4.8, depth 10.5, the UTC instant of
epoch-millisecond 1700000000000 (epoch-second 1700000000), and place
"10km NW of X". -/
theorem parse_skips_incomplete_and_builds_spec_record
    (pre post : List Json) (f geom : Json)
    (fields : List (String × Json)) (coords : List Json)
    (hp : getStr f "properties" = .ok (.obj fields))
    (hg : getStr f "geometry" = .ok geom)
    (hc : getStr geom "coordinates" = .ok (.arr coords))
    (hlen : 3 ≤ coords.length)
    (hmt : ((fields.lookup "mag").getD .null).isNull = true ∨
      ((fields.lookup "time").getD .null).isNull = true) :
    extractQuake f = .ok none ∧
    parseFeatures (pre ++ f :: post) = parseFeatures (pre ++ post) ∧
    parse_geojson specDoc = .ok [specQuake] ∧
    specQuake.magnitude = 4.8 ∧ specQuake.depth_km = 10.5 ∧
    specQuake.time_utc = 1700000000 ∧ specQuake.place = "10km NW of X" := by
  have hskip : extractQuake f = .ok none := by
    rcases coords with _ | ⟨c0, _ | ⟨c1, _ | ⟨c2, cs⟩⟩⟩ <;> simp at hlen
    rcases hmt with h | h <;>
      simp [extractQuake, hp, hg, hc, Except.bind, dictGet, getIdx, h]
  refine ⟨hskip, parseFeatures_skip f hskip pre post, ?_, rfl, rfl,
    by norm_num [specQuake], rfl⟩
  simp [parse_geojson, specDoc, parseFeatures, extractQuake, specFeature, getStr, dictGet,
    getIdx, Except.bind, toIntPy, toFloatPy, withDefault, pyFalsy, pyStr, specQuake,
    truncRat, Except.map, Quake.mk.injEq, List.lookup, Json.isNull, String.isEmpty]
  norm_num
  rfl

/-- C1 witness: the concrete empty-properties feature is skipped while the
specification's example feature yields its record. -/
theorem parse_skips_incomplete_witness :
    extractQuake skipFeature = .ok none ∧
    parseFeatures ([] ++ skipFeature :: [specFeature]) = parseFeatures ([] ++ [specFeature]) ∧
    parse_geojson specDoc = .ok [specQuake] ∧
    specQuake.magnitude = 4.8 ∧ specQuake.depth_km = 10.5 ∧
    specQuake.time_utc = 1700000000 ∧ specQuake.place = "10km NW of X" :=
  parse_skips_incomplete_and_builds_spec_record [] [specFeature] skipFeature
    (.obj [("coordinates", .arr [.num 0, .num 0, .num 0])]) [] [.num 0, .num 0, .num 0]
    rfl rfl rfl (by decide) (Or.inl rfl)

/-- C10: a feature whose magnitude and time are present and valid but whose
coordinates array has only two elements does not merely fail to yield a
record: the `coords[2]` access raises `IndexError`, which the feature loop's
`except (KeyError, TypeError, ValueError)` clause does not catch, so the
whole parse aborts instead of silently skipping the feature. -/
theorem parse_short_coords_raises_uncaught_index_error :
    parse_geojson shortCoordsDoc = .error .indexError ∧
    PyErr.caught .indexError = false := by
  refine ⟨?_, rfl⟩
  simp [parse_geojson, shortCoordsDoc, parseFeatures, extractQuake, shortCoordsFeature,
    getStr, dictGet, getIdx, Except.bind, List.lookup, Json.isNull, PyErr.caught]

theorem magDesc_trans : ∀ a b c : Quake,
    magDesc a b = true → magDesc b c = true → magDesc a c = true := by
  intro a b c h1 h2
  simp only [magDesc, decide_eq_true_eq] at *
  exact le_trans h2 h1

theorem magDesc_total : ∀ a b : Quake, (magDesc a b || magDesc b a) = true := by
  intro a b
  simp only [magDesc, Bool.or_eq_true, decide_eq_true_eq]
  exact le_total _ _

/-- C2: sorting in "magnitude" mode yields a list whose every adjacent pair
(a, b) satisfies a.magnitude ≥ b.magnitude, and the records of any given
magnitude appear in their original relative order (stability on ties,
stated as filter-invariance for every key value). -/
theorem sort_magnitude_descending_stable (qs : List Quake) :
    List.Chain' (fun a b => b.magnitude ≤ a.magnitude) (sort_quakes qs "magnitude") ∧
    ∀ m : ℚ, (sort_quakes qs "magnitude").filter (fun q => decide (q.magnitude = m)) =
      qs.filter (fun q => decide (q.magnitude = m)) := by
  have hsq : sort_quakes qs "magnitude" = qs.mergeSort magDesc := by
    rw [sort_quakes, if_neg (by decide)]
  constructor
  · rw [hsq]
    exact ((List.sorted_mergeSort magDesc_trans magDesc_total qs).imp
      (fun h => by simpa [magDesc] using h)).chain'
  · intro m
    rw [hsq]
    set p : Quake → Bool := fun q => decide (q.magnitude = m) with hpdef
    have hmem : ∀ a ∈ qs.filter p, p a = true := fun a ha => (List.mem_filter.mp ha).2
    have hcp : List.Pairwise (fun a b => magDesc a b = true) (qs.filter p) := by
      apply List.pairwise_of_forall_mem_list
      intro a ha b hb
      have ha' : a.magnitude = m := by simpa [hpdef] using hmem a ha
      have hb' : b.magnitude = m := by simpa [hpdef] using hmem b hb
      simp [magDesc, ha', hb']
    have hsub : (qs.filter p).Sublist ((qs.mergeSort magDesc).filter p) := by
      have h1 : (qs.filter p).filter p = qs.filter p :=
        List.filter_eq_self.mpr hmem
      have h2 := List.Sublist.filter p
        (List.sublist_mergeSort magDesc_trans magDesc_total hcp (List.filter_sublist qs))
      rwa [h1] at h2
    have hperm : ((qs.mergeSort magDesc).filter p).Perm (qs.filter p) :=
      (List.mergeSort_perm qs magDesc).filter p
    exact (List.Sublist.eq_of_length hsub hperm.length_eq.symm).symm

/-- C9: sorting in "time" mode yields a permutation of the input whose every
adjacent pair (a, b) satisfies a.time_utc ≥ b.time_utc (most recent first),
and the empty input yields the empty output. -/
theorem sort_time_descending (qs : List Quake) :
    List.Chain' (fun a b => b.time_utc ≤ a.time_utc) (sort_quakes qs "time") ∧
    (sort_quakes qs "time").Perm qs ∧
    sort_quakes ([] : List Quake) "time" = [] := by
  have hsq : sort_quakes qs "time" = qs.mergeSort timeDesc := by
    rw [sort_quakes, if_pos rfl]
  have htrans : ∀ a b c : Quake,
      timeDesc a b = true → timeDesc b c = true → timeDesc a c = true := by
    intro a b c h1 h2
    simp only [timeDesc, decide_eq_true_eq] at *
    exact le_trans h2 h1
  have htotal : ∀ a b : Quake, (timeDesc a b || timeDesc b a) = true := by
    intro a b
    simp only [timeDesc, Bool.or_eq_true, decide_eq_true_eq]
    exact le_total _ _
  refine ⟨?_, ?_, by simp [sort_quakes]⟩
  · rw [hsq]
    exact ((List.sorted_mergeSort htrans htotal qs).imp
      (fun h => by simpa [timeDesc] using h)).chain'
  · rw [hsq]
    exact List.mergeSort_perm qs timeDesc

/-- C3: the fetch limit (a `build_params` argument, sent to the server) and
the display limit (a `print_results` argument) are separate parameters: with
any fetch limit, displaying 5 records under display limit 20 prints the
header "Found 5 earthquakes. Showing up to 5:" followed by rows for all 5
records. -/
theorem display_limit_independent_of_fetch_limit (qs : List Quake) (h5 : qs.length = 5)
    (start_utc end_utc min_mag : ℚ) (fetchLimit : ℤ) :
    (build_params start_utc end_utc min_mag fetchLimit).limit = fetchLimit ∧
    print_results qs 20 =
      ("Found 5 earthquakes. Showing up to 5:" ::
        String.mk (List.replicate 80 '-') :: resultRows qs 1) := by
  refine ⟨rfl, ?_⟩
  have hne : qs.isEmpty = false := by
    cases qs with
    | nil => simp at h5
    | cons a t => rfl
  have htake : pySliceTo qs 20 = qs := by
    rw [pySliceTo, if_pos (by decide)]
    exact List.take_of_length_le (by rw [h5]; decide)
  simp [print_results, hne, htake, h5]
  rfl

/-- C3 witness: five placeholder records, fetch limit 5, display limit 20. -/
theorem display_limit_independent_witness :
    (build_params 0 0 (5/2) 5).limit = 5 ∧
    print_results (List.replicate 5 wQuake) 20 =
      ("Found 5 earthquakes. Showing up to 5:" ::
        String.mk (List.replicate 80 '-') :: resultRows (List.replicate 5 wQuake) 1) :=
  display_limit_independent_of_fetch_limit (List.replicate 5 wQuake) rfl 0 0 (5/2) 5

/-- C4 counterexample: for hours = 1/7200 (a half-second window) with
limit = 20 and end instant 0.6 s after the epoch, the seconds-precision
start and end strings coincide, so the start-time string is not strictly
before the end-time string. -/
theorem build_params_subsecond_window_not_ordered :
    (0 : ℚ) < 1/7200 ∧ (0 : ℤ) < 20 ∧
    (build_params ((3:ℚ)/5 - (1/7200) * 3600) ((3:ℚ)/5) (5/2) 20).starttime =
      (build_params ((3:ℚ)/5 - (1/7200) * 3600) ((3:ℚ)/5) (5/2) 20).endtime := by
  refine ⟨by norm_num, by decide, ?_⟩
  show isoformat_utc ((3:ℚ)/5 - (1/7200) * 3600) = isoformat_utc ((3:ℚ)/5)
  rw [isoformat_utc, isoformat_utc]
  norm_num

/-- C4 (amended): for every hours > 0 whose window spans a whole number of
seconds (hours = n/3600 with n ≥ 1) and every limit > 0, the start-time
string is strictly before the end-time string and the two rendered
timestamps are separated by exactly `hours` hours (3600·hours seconds). -/
theorem build_params_whole_second_window_ordered (n : ℕ) (hn : 0 < n)
    (limit : ℤ) (hl : 0 < limit) (now min_mag : ℚ) :
    (build_params (now - ((n:ℚ)/3600) * 3600) now min_mag limit).starttime <
      (build_params (now - ((n:ℚ)/3600) * 3600) now min_mag limit).endtime ∧
    (((build_params (now - ((n:ℚ)/3600) * 3600) now min_mag limit).endtime -
        (build_params (now - ((n:ℚ)/3600) * 3600) now min_mag limit).starttime : ℤ) : ℚ) =
      3600 * ((n:ℚ)/3600) := by
  have harg : now - ((n:ℚ)/3600) * 3600 = now - (n:ℤ) := by
    push_cast
    field_simp
  have hst : (build_params (now - ((n:ℚ)/3600) * 3600) now min_mag limit).starttime =
      ⌊now⌋ - n := by
    show isoformat_utc (now - ((n:ℚ)/3600) * 3600) = ⌊now⌋ - n
    rw [isoformat_utc, harg, Int.floor_sub_int]
  have hen : (build_params (now - ((n:ℚ)/3600) * 3600) now min_mag limit).endtime =
      ⌊now⌋ := rfl
  constructor
  · rw [hst, hen]
    omega
  · rw [hst, hen]
    push_cast
    field_simp

/-- C4 witness: a one-hour window (n = 3600 seconds) ending at the epoch. -/
theorem build_params_whole_second_window_witness :
    (build_params ((0:ℚ) - ((3600:ℕ):ℚ)/3600 * 3600) 0 (5/2) 20).starttime <
      (build_params ((0:ℚ) - ((3600:ℕ):ℚ)/3600 * 3600) 0 (5/2) 20).endtime ∧
    (((build_params ((0:ℚ) - ((3600:ℕ):ℚ)/3600 * 3600) 0 (5/2) 20).endtime -
        (build_params ((0:ℚ) - ((3600:ℕ):ℚ)/3600 * 3600) 0 (5/2) 20).starttime : ℤ) : ℚ) =
      3600 * (((3600:ℕ):ℚ)/3600) :=
  build_params_whole_second_window_ordered 3600 (by decide) 20 (by decide) 0 (5/2)

/-- C5: for every JSON object document whose "features" field is absent or
not a list, `parse_geojson` raises the schema `RuntimeError` (a hard
failure) instead of returning a record list. -/
theorem parse_missing_features_schema_error (fields : List (String × Json))
    (h : ((fields.lookup "features").getD .null).isArr = false) :
    parse_geojson (.obj fields) =
      .error (.runtimeError "Unexpected response: 'features' missing or not a list.") := by
  simp only [parse_geojson, dictGet, Except.bind]
  rcases hv : (fields.lookup "features").getD Json.null with _ | b | q | s | xs | fs
  · rfl
  · rfl
  · rfl
  · rfl
  · rw [hv] at h; simp [Json.isArr] at h
  · rfl

/-- C5 witness: the empty object has no "features" field. -/
theorem parse_missing_features_schema_error_witness :
    parse_geojson (.obj []) =
      .error (.runtimeError "Unexpected response: 'features' missing or not a list.") :=
  parse_missing_features_schema_error [] rfl

/-- C6: on any non-200 response the fetch stage fails with a status
`RuntimeError` whose message carries the 300-character prefix of the
response body, and the fetch-then-parse pipeline yields no record list. -/
theorem fetch_non200_status_error (resp : HttpResponse) (h : resp.status_code ≠ 200) :
    fetch_quakes resp = .error (.runtimeError
      ("USGS API returned HTTP " ++ toString resp.status_code ++ ": " ++ resp.text.take 300)) ∧
    ∀ qs : List Quake, fetch_then_parse resp ≠ .ok qs := by
  have h1 : fetch_quakes resp = .error (.runtimeError
      ("USGS API returned HTTP " ++ toString resp.status_code ++ ": " ++ resp.text.take 300)) := by
    rw [fetch_quakes, if_pos h]
  refine ⟨h1, fun qs => ?_⟩
  rw [fetch_then_parse, h1]
  simp [Except.bind]

/-- C6 witness: a 500 response with a diagnostic body. -/
theorem fetch_non200_status_error_witness :
    fetch_quakes resp500 = .error (.runtimeError
      ("USGS API returned HTTP " ++ toString resp500.status_code ++ ": " ++
        resp500.text.take 300)) ∧
    ∀ qs : List Quake, fetch_then_parse resp500 ≠ .ok qs :=
  fetch_non200_status_error resp500 (by decide)

/-- C7: when the CLI hours value or the limit value is non-positive, `main`
prints the corresponding message to the error stream and returns exit code
2, and the network is never reached. -/
theorem main_rejects_nonpositive_args_exit2 (a : Args) (now : ℚ) (resp : HttpResponse)
    (h : a.hours ≤ 0 ∨ a.limit ≤ 0) :
    (runMain a now resp).result = .ok 2 ∧
    (runMain a now resp).stderr =
      [if a.hours ≤ 0 then "--hours must be > 0" else "--limit must be > 0"] ∧
    (runMain a now resp).networkCalled = false := by
  by_cases hh : a.hours ≤ 0
  · simp [runMain, hh]
  · rcases h with h | h
    · exact absurd h hh
    · simp [runMain, hh, h]

/-- C7 witness: hours = 0 with an otherwise healthy invocation. -/
theorem main_rejects_nonpositive_args_witness :
    (runMain wArgs 0 respOk).result = .ok 2 ∧
    (runMain wArgs 0 respOk).stderr =
      [if wArgs.hours ≤ 0 then "--hours must be > 0" else "--limit must be > 0"] ∧
    (runMain wArgs 0 respOk).networkCalled = false :=
  main_rejects_nonpositive_args_exit2 wArgs 0 respOk (Or.inl (le_refl 0))

/-- C8: on an empty record list the text presenter prints exactly the
no-matches message and the chart presenter prints exactly the no-data
message with no chart produced; both return normally for every limit,
title, save path and show flag. -/
theorem presenters_empty_input_messages (limit : ℤ) (title : String)
    (path : Option String) (showFlag : Bool) :
    print_results [] limit = ["No earthquakes matched your filters."] ∧
    plot_quakes [] title path showFlag =
      { printed := ["No data to plot."], chartProduced := false } :=
  ⟨rfl, rfl⟩
